import Mathlib

/-!
Verification of the RIMP telemetry pipeline

Shallow embedding of the telemetry pipeline in `src/telemetry/`
(`models.py`, `config.py`, `collector.py`, `streaming.py`, `storage.py`,
`core/telemetry_service.py`) together with proofs of the specified
properties.

Modelling conventions:
* Python lists become Lean `List`s; dictionaries become association lists.
* `datetime` timestamps become `Nat` (an instant on a totally ordered
  clock); `datetime.isoformat` / `dateutil.parser.parse` become the
  base-10 digit encoding `Nat.digits 10` / `Nat.ofDigits 10` of that
  instant (a decimal rendering of the instant, faithful to the fact that
  the ISO text of an instant parses back to an equal instant).
* Python `float` payloads that merely pass through JSON
  (`TelemetryMetric.value`) are modelled as `Int`: `json.dumps`/`json.loads`
  round-trips the number text, and no arithmetic is ever performed on it.
* Exceptions become `Except String`; a `try/except: pass` block becomes a
  `match` that continues on the `error` branch.
* `uuid.uuid4()` and `datetime.utcnow()` are environment inputs, passed to
  the embedded operations as explicit oracle arguments.
-/

namespace RIMP

/-- Embedding of `EventType` from `src/telemetry/models.py` (a `str`-valued enum). -/
inductive EventType where
  | info
  | warning
  | error
  | debug
deriving DecidableEq

/-- The `str` value of each `EventType` member (`models.py`). -/
def EventType.value : EventType → String
  | .info => "info"
  | .warning => "warning"
  | .error => "error"
  | .debug => "debug"

/-- Coercion of a string back into the `str`-enum `EventType`, as performed
by pydantic when `TelemetryEvent(**data)` receives `event_type` as a string
(`storage.py` retrieve path); an unrecognised string raises, i.e. `none`. -/
def EventType.fromValue : String → Option EventType := fun s =>
  if s = "info" then some .info
  else if s = "warning" then some .warning
  else if s = "error" then some .error
  else if s = "debug" then some .debug
  else none

/-- A Python `dict` of scalar entries (tags, metadata), as an association list. -/
abbrev StrDict := List (String × String)

/-- Embedding of `TelemetryEvent` from `src/telemetry/models.py`. -/
structure TelemetryEvent where
  event_id : String
  timestamp : Nat
  event_type : EventType
  source : String
  message : String
  metadata : Option StrDict
deriving DecidableEq

/-- Embedding of `TelemetryMetric` from `src/telemetry/models.py` (`value` is a JSON
number payload, see the header note on floats). -/
structure TelemetryMetric where
  metric_id : String
  timestamp : Nat
  name : String
  value : Int
  unit : Option String
  tags : Option StrDict
deriving DecidableEq

/-- Embedding of `TelemetryData` from `src/telemetry/models.py`: the collector's buffer,
a pair of lists of events and metrics. -/
structure TelemetryData where
  events : List TelemetryEvent
  metrics : List TelemetryMetric
deriving DecidableEq

/-- A fresh `TelemetryData()` (both lists empty). -/
def TelemetryData.empty : TelemetryData := { events := [], metrics := [] }

/-- Method `TelemetryData.add_event` (`models.py`): append the event. -/
def TelemetryData.addEvent (d : TelemetryData) (e : TelemetryEvent) : TelemetryData :=
  { d with events := d.events ++ [e] }

/-- Method `TelemetryData.add_metric` (`models.py`): append the metric. -/
def TelemetryData.addMetric (d : TelemetryData) (m : TelemetryMetric) : TelemetryData :=
  { d with metrics := d.metrics ++ [m] }

/-- Embedding of `TelemetryConfig`.  Fields `enabled`, `source`, `buffer_size`,
`retention_limit`, `export_format`, `export_path`, `custom_settings` are the
dataclass fields of `src/telemetry/config.py`.

Modelled from the spec: the remaining fields belong to a configuration
variant missing from `src/` — `realtime_mode` is read by
`collector.py`/`streaming.py` and passed by `src/examples/*.py`,
`flush_interval_ms`, `sample_rate` and `tags` are constructed and asserted
on by `src/tests/test_config.py` and `src/tests/test_collector.py`, but no
definition of them exists under `src/` (the `config.py` dataclass lacks
them).  Defaults follow `test_config.py::test_default_config`. -/
structure TelemetryConfig where
  enabled : Bool := true
  source : String := "rimp"
  buffer_size : Int := 1000
  retention_limit : Option Int := some 10000
  export_format : String := "json"
  export_path : String := "./telemetry_data"
  custom_settings : StrDict := []
  realtime_mode : Bool := false
  flush_interval_ms : Int := 5000
  sample_rate : ℚ := 1
  tags : StrDict := []
deriving DecidableEq

/-- A registered listener (`collector.py`) or consumer (`streaming.py`):
`fails` says whether its callback raises when invoked, `received` logs the
batches it has been invoked with. -/
structure Listener where
  fails : Bool
  received : List TelemetryData
deriving DecidableEq

/-- Invoking one listener callback with a batch: the listener observes the
batch (it is appended to its log), then either returns or raises. -/
def Listener.invoke (l : Listener) (d : TelemetryData) : Listener × Except String Unit :=
  ({ l with received := l.received ++ [d] },
   if l.fails then Except.error "listener raised" else Except.ok ())

/-- The `for listener in self._listeners: try: listener(snapshot) except
Exception: pass` loop of `TelemetryCollector._notify_listeners`
(`collector.py`): each listener is invoked in order and a raising listener
is silently ignored, the loop continuing with the rest. -/
def notifyEach : List Listener → TelemetryData → List Listener
  | [], _ => []
  | l :: rest, d =>
    match l.invoke d with
    | (l2, Except.ok _) => l2 :: notifyEach rest d
    | (l2, Except.error _) => l2 :: notifyEach rest d

/-- Method `TelemetryCollector._notify_listeners` (`collector.py`): guarded by
`if self._listeners and (self._buffer.events or self._buffer.metrics)`;
the snapshot handed to listeners is a copy of the current buffer. -/
def notifyListeners (ls : List Listener) (buf : TelemetryData) : List Listener :=
  if ls = [] then ls
  else if buf.events = [] ∧ buf.metrics = [] then ls
  else notifyEach ls buf

/-- The mutable state of a `TelemetryCollector` (`collector.py`):
its buffer and its registered listeners. -/
structure CollectorState where
  buffer : TelemetryData
  listeners : List Listener
deriving DecidableEq

/-- A collector as `TelemetryCollector.__init__` leaves it: empty
`TelemetryData()` buffer and no listeners, with the given listeners
subsequently registered via `add_listener`. -/
def CollectorState.start (ls : List Listener) : CollectorState :=
  { buffer := TelemetryData.empty, listeners := ls }

/-- Method `TelemetryCollector.get_buffer_size` (`collector.py`):
`len(self._buffer.events) + len(self._buffer.metrics)`. -/
def CollectorState.getBufferSize (st : CollectorState) : Nat :=
  st.buffer.events.length + st.buffer.metrics.length

/-- Methods `TelemetryCollector._flush` and `flush` (`collector.py`): the whole
buffer is swapped out for a fresh `TelemetryData()` and returned. -/
def CollectorState.flush (st : CollectorState) : TelemetryData × CollectorState :=
  (st.buffer, { st with buffer := TelemetryData.empty })

/-- Method `TelemetryCollector.collect_event` (`collector.py`): if disabled,
return `None`; otherwise build the event (with oracle-supplied id and
timestamp), append it to the buffer, notify listeners when
`config.realtime_mode`, and when `len(self._buffer.events) >=
self.config.buffer_size` call `self._flush()` discarding its result. -/
def collectEvent (cfg : TelemetryConfig) (st : CollectorState)
    (eid : String) (ts : Nat) (source message : String)
    (etype : EventType) (metadata : Option StrDict) :
    CollectorState × Option TelemetryEvent :=
  if cfg.enabled = false then (st, none)
  else
    let ev : TelemetryEvent :=
      { event_id := eid, timestamp := ts, event_type := etype,
        source := source, message := message, metadata := metadata }
    let buf1 := st.buffer.addEvent ev
    let ls1 := if cfg.realtime_mode then notifyListeners st.listeners buf1
               else st.listeners
    let buf2 := if (buf1.events.length : Int) ≥ cfg.buffer_size then TelemetryData.empty
                else buf1
    ({ buffer := buf2, listeners := ls1 }, some ev)

/-- Method `TelemetryCollector.collect_metric` (`collector.py`): the metric-side
twin of `collectEvent`, with the threshold tested against
`len(self._buffer.metrics)`. -/
def collectMetric (cfg : TelemetryConfig) (st : CollectorState)
    (mid : String) (ts : Nat) (name : String) (value : Int)
    (unit : Option String) (tgs : Option StrDict) :
    CollectorState × Option TelemetryMetric :=
  if cfg.enabled = false then (st, none)
  else
    let m : TelemetryMetric :=
      { metric_id := mid, timestamp := ts, name := name,
        value := value, unit := unit, tags := tgs }
    let buf1 := st.buffer.addMetric m
    let ls1 := if cfg.realtime_mode then notifyListeners st.listeners buf1
               else st.listeners
    let buf2 := if (buf1.metrics.length : Int) ≥ cfg.buffer_size then TelemetryData.empty
                else buf1
    ({ buffer := buf2, listeners := ls1 }, some m)

/-- One ingestion call against the collector, with all caller-supplied and
oracle-supplied arguments. -/
inductive Call where
  | cEvent (eid : String) (ts : Nat) (source message : String)
      (etype : EventType) (metadata : Option StrDict)
  | cMetric (mid : String) (ts : Nat) (name : String) (value : Int)
      (unit : Option String) (tgs : Option StrDict)
deriving DecidableEq

/-- Execute one `Call` on the collector state (dropping the returned record). -/
def Call.step (cfg : TelemetryConfig) (st : CollectorState) : Call → CollectorState
  | .cEvent eid ts source message etype metadata =>
      (collectEvent cfg st eid ts source message etype metadata).1
  | .cMetric mid ts name value unit tgs =>
      (collectMetric cfg st mid ts name value unit tgs).1

/-- Execute a sequence of ingestion calls from a collector state. -/
def runCalls (cfg : TelemetryConfig) (st : CollectorState) : List Call → CollectorState
  | [] => st
  | c :: cs => runCalls cfg (c.step cfg st) cs

/-! Configuration construction and validation (`config.py`, claims C8) -/

/-- The argument of `TelemetryConfig.from_dict` (`config.py`): a Python
dictionary, one optional entry per recognized key (`dict.get(key, default)`
reads the entry or falls back to the default). -/
structure ConfigDict where
  enabled : Option Bool := none
  source : Option String := none
  buffer_size : Option Int := none
  retention_limit : Option (Option Int) := none
  export_format : Option String := none
  export_path : Option String := none
  custom_settings : Option StrDict := none
deriving DecidableEq

/-- Method `TelemetryConfig.from_dict` (`config.py`): each dataclass field is set
to `config_dict.get(key, default)`, with no validation and no coercion of
any value; fields not belonging to the `config.py` dataclass keep the
defaults of the missing variant (see `TelemetryConfig`). -/
def TelemetryConfig.fromDict (d : ConfigDict) : TelemetryConfig :=
  { enabled := d.enabled.getD true,
    source := d.source.getD "rimp",
    buffer_size := d.buffer_size.getD 1000,
    retention_limit := d.retention_limit.getD (some 10000),
    export_format := d.export_format.getD "json",
    export_path := d.export_path.getD "./telemetry_data",
    custom_settings := d.custom_settings.getD [] }

/-- Modelled from the spec: `TelemetryConfig.validate` is called by
`TelemetryCollector.__init__` (`collector.py` line 29) and exercised by
`src/tests/test_config.py`, but no definition of it exists under `src/`
(the `config.py` dataclass has no such method).  Following the spec
("Validation is performed once at construction and fails fast with a
descriptive error") and the error messages asserted by the tests: a
non-positive `buffer_size`, a non-positive flush interval, or a
`sample_rate` outside `[0.0, 1.0]` raises `ValueError`. -/
def TelemetryConfig.validate (cfg : TelemetryConfig) : Except String Unit :=
  if cfg.buffer_size ≤ 0 then Except.error "buffer_size must be positive"
  else if cfg.flush_interval_ms ≤ 0 then Except.error "flush_interval_ms must be positive"
  else if cfg.sample_rate < 0 ∨ 1 < cfg.sample_rate then
    Except.error "sample_rate must be between 0.0 and 1.0"
  else Except.ok ()

/-- Method `TelemetryCollector.__init__` (`collector.py`): store the
configuration, call `self.config.validate()` (raising on an invalid
configuration), and start with an empty buffer and no listeners. -/
def collectorInit (cfg : TelemetryConfig) : Except String CollectorState :=
  match cfg.validate with
  | Except.error e => Except.error e
  | Except.ok _ => Except.ok (CollectorState.start [])

/-! The stream bridge (`streaming.py`, claims C6, C7) -/

/-- The `for consumer in self._consumers: try: consumer(data) except
Exception: pass` loop of `TelemetryStream._send_to_consumers`
(`streaming.py`): every consumer is invoked in order, exceptions are
silently ignored. -/
def sendToConsumers : List Listener → TelemetryData → List Listener
  | [], _ => []
  | c :: rest, d =>
    match c.invoke d with
    | (c2, Except.ok _) => c2 :: sendToConsumers rest d
    | (c2, Except.error _) => c2 :: sendToConsumers rest d

/-- The state of a `TelemetryStream` (`streaming.py`) together with the
collector it streams from: `storageLog` is the list of batches handed to
`self.storage.store` (present only when `hasStorage`), `consumers` the
registered consumers, `stopRequested` the `_stop_event` flag, and
`registered` whether `_on_realtime_data` is currently registered as a
collector listener. -/
structure StreamState where
  collector : CollectorState
  hasStorage : Bool
  storageLog : List TelemetryData
  consumers : List Listener
  stopRequested : Bool
  registered : Bool
deriving DecidableEq

/-- One pass of `TelemetryStream._stream_loop` (`streaming.py`), starting
at the `while not self._stop_event.is_set()` test: when the stop event is
set the loop exits (second component `false`); otherwise the collector is
flushed and, if the drained batch is non-empty, it is stored (when a
storage backend is attached) and sent to the consumers, after which the
loop waits for the next interval. -/
def streamIter (s : StreamState) : StreamState × Bool :=
  if s.stopRequested then (s, false)
  else
    let (data, c2) := s.collector.flush
    let s1 := { s with collector := c2 }
    if data.events = [] ∧ data.metrics = [] then (s1, true)
    else
      let s2 := if s1.hasStorage then { s1 with storageLog := s1.storageLog ++ [data] }
                else s1
      (({ s2 with consumers := sendToConsumers s2.consumers data }), true)

/-- Method `TelemetryStream.stop` (`streaming.py`): set the stop event, join the
worker thread — which, observing the flag at the top of its loop, exits
its next iteration without touching the buffer (`streamIter` on a
stop-requested state) — and unregister the real-time listener. -/
def streamStop (s : StreamState) : StreamState :=
  let s1 := { s with stopRequested := true }
  let s2 := (streamIter s1).1
  { s2 with registered := false }

/-! The core service (`core/telemetry_service.py`, claim C5) -/

/-- Embedding of `TelemetryEvent` from `src/telemetry/core/telemetry_event.py`. -/
structure CoreEvent where
  event_type : String
  source : String
  data : StrDict
  event_id : String
  timestamp : Nat
  metadata : StrDict
deriving DecidableEq

/-- The state of a `TelemetryService` (`core/telemetry_service.py`) and its
`DataCollector` (`core/data_collector.py`): the bounded queue, the running
event count, the configured maximum size, and the registered callbacks. -/
structure ServiceState where
  enabled : Bool
  running : Bool
  queue : List CoreEvent
  eventCount : Nat
  maxBufferSize : Int
  callbacks : List Listener
deriving DecidableEq

/-- Method `DataCollector.collect` (`core/data_collector.py`): `put_nowait` the
event — a full bounded queue (`Queue(maxsize)` with `maxsize > 0`) raises,
which the `except` turns into `False` — then bump the count and invoke each
callback, per-callback exceptions ignored.  Callback payloads are logged as
singleton batches of the collected event. -/
def coreCollect (st : ServiceState) (ev : CoreEvent) : ServiceState × Bool :=
  if 0 < st.maxBufferSize ∧ (st.queue.length : Int) ≥ st.maxBufferSize then (st, false)
  else
    let batch : TelemetryData :=
      { events := [{ event_id := ev.event_id, timestamp := ev.timestamp,
                     event_type := EventType.info, source := ev.source,
                     message := ev.event_type, metadata := some ev.data }],
        metrics := [] }
    ({ st with queue := st.queue ++ [ev],
               eventCount := st.eventCount + 1,
               callbacks := sendToConsumers st.callbacks batch }, true)

/-- Method `TelemetryService.emit` (`core/telemetry_service.py`): if the service
is not enabled or not running, return `False` without constructing or
collecting anything; otherwise build the event (oracle id and timestamp)
and hand it to the collector. -/
def serviceEmit (st : ServiceState) (event_type source : String)
    (data : StrDict) (metadata : Option StrDict)
    (eid : String) (ts : Nat) : ServiceState × Bool :=
  if st.enabled = false ∨ st.running = false then (st, false)
  else
    coreCollect st
      { event_type := event_type, source := source, data := data,
        event_id := eid, timestamp := ts, metadata := metadata.getD [] }

/-! The file storage backend (`storage.py`, claim C9)

`FileStorage.store` writes one `json.dumps` line per record and
`FileStorage.retrieve` re-reads the file line by line with `json.loads`.
A line is modelled as the JSON value it carries (`json.dumps`/`json.loads`
round-trip the value); the timestamp travels as its decimal text, modelled
by its base-10 digits (see the header note). -/

/-- The `data` object written for an event by
`FileStorage._serialize_event` (`storage.py`): all fields as JSON values,
`timestamp` as `event.timestamp.isoformat()` text and `event_type` as the
enum's `str` value. -/
structure EventWire where
  event_id : String
  timestamp : List Nat
  event_type : String
  source : String
  message : String
  metadata : Option StrDict
deriving DecidableEq

/-- The `data` object written for a metric by
`FileStorage._serialize_metric` (`storage.py`). -/
structure MetricWire where
  metric_id : String
  timestamp : List Nat
  name : String
  value : Int
  unit : Option String
  tags : Option StrDict
deriving DecidableEq

/-- One line of the storage file: an `{'type': 'event', 'data': ...}`
object, an `{'type': 'metric', 'data': ...}` object, or a line that fails
to parse back into either shape (corrupt text, unknown `type` tag, missing
keys). -/
inductive FileLine where
  | event (w : EventWire)
  | metric (w : MetricWire)
  | corrupt
deriving DecidableEq

/-- Method `FileStorage._serialize_event` (`storage.py`). -/
def serializeEvent (e : TelemetryEvent) : EventWire :=
  { event_id := e.event_id,
    timestamp := Nat.digits 10 e.timestamp,
    event_type := e.event_type.value,
    source := e.source,
    message := e.message,
    metadata := e.metadata }

/-- Method `FileStorage._serialize_metric` (`storage.py`). -/
def serializeMetric (m : TelemetryMetric) : MetricWire :=
  { metric_id := m.metric_id,
    timestamp := Nat.digits 10 m.timestamp,
    name := m.name,
    value := m.value,
    unit := m.unit,
    tags := m.tags }

/-- Method `FileStorage.store` (`storage.py`): append one line per event, then
one line per metric, to the existing file. -/
def FileStorage.store (d : TelemetryData) (file : List FileLine) : List FileLine :=
  file ++ d.events.map (fun e => FileLine.event (serializeEvent e))
       ++ d.metrics.map (fun m => FileLine.metric (serializeMetric m))

/-- Rebuilding a `TelemetryEvent` from a parsed line
(`TelemetryEvent(**data)` after `parser.parse` of the timestamp text,
`storage.py` retrieve path): an unrecognised `event_type` string makes the
pydantic constructor raise, i.e. the line is skipped. -/
def parseEventWire (w : EventWire) : Option TelemetryEvent :=
  (EventType.fromValue w.event_type).map fun et =>
    { event_id := w.event_id,
      timestamp := Nat.ofDigits 10 w.timestamp,
      event_type := et,
      source := w.source,
      message := w.message,
      metadata := w.metadata }

/-- Rebuilding a `TelemetryMetric` from a parsed line (`storage.py`). -/
def parseMetricWire (w : MetricWire) : Option TelemetryMetric :=
  some
    { metric_id := w.metric_id,
      timestamp := Nat.ofDigits 10 w.timestamp,
      name := w.name,
      value := w.value,
      unit := w.unit,
      tags := w.tags }

/-- The `if limit and count >= limit: break` test of `FileStorage.retrieve`
(`storage.py`): Python truthiness makes both `None` and `0` mean
"no limit". -/
def limitReached (limit : Option Nat) (count : Nat) : Bool :=
  match limit with
  | none => false
  | some l => decide (0 < l) && decide (l ≤ count)

/-- The line loop of `FileStorage.retrieve` (`storage.py`): stop once the
limit is reached, skip lines that fail to parse (without counting them),
and gather events and metrics in file order. -/
def retrieveGo : List FileLine → Nat → Option Nat → TelemetryData
  | [], _, _ => TelemetryData.empty
  | line :: rest, count, limit =>
    if limitReached limit count then TelemetryData.empty
    else
      match line with
      | .event w =>
        match parseEventWire w with
        | some e =>
          let d := retrieveGo rest (count + 1) limit
          { d with events := e :: d.events }
        | none => retrieveGo rest count limit
      | .metric w =>
        match parseMetricWire w with
        | some m =>
          let d := retrieveGo rest (count + 1) limit
          { d with metrics := m :: d.metrics }
        | none => retrieveGo rest count limit
      | .corrupt => retrieveGo rest count limit

/-- Method `FileStorage.retrieve` (`storage.py`): read the file back.  The
`start_time` and `end_time` parameters are accepted but never used by the
`FileStorage` implementation; `limit` caps the total number of parsed
records. -/
def FileStorage.retrieve (file : List FileLine)
    (_start_time _end_time : Option Nat) (limit : Option Nat) : TelemetryData :=
  retrieveGo file 0 limit

/-! Helper lemmas -/

/-- The listener loop invokes every listener with the batch, whether or not
any of them raises. -/
theorem notifyEach_eq_map (ls : List Listener) (d : TelemetryData) :
    notifyEach ls d = ls.map fun l => { l with received := l.received ++ [d] } := by
  induction ls with
  | nil => rfl
  | cons l rest ih =>
    cases hf : l.fails <;> simp [notifyEach, Listener.invoke, hf, ih]

/-- The consumer loop invokes every consumer with the batch, whether or not
any of them raises. -/
theorem sendToConsumers_eq_map (cs : List Listener) (d : TelemetryData) :
    sendToConsumers cs d = cs.map fun l => { l with received := l.received ++ [d] } := by
  induction cs with
  | nil => rfl
  | cons c rest ih =>
    cases hf : c.fails <;> simp [sendToConsumers, Listener.invoke, hf, ih]

/-- One ingestion call keeps each of the two buffer lists strictly below
the configured `buffer_size` (reaching it triggers the internal flush). -/
theorem step_buffer_bound (cfg : TelemetryConfig) (st : CollectorState) (c : Call)
    (he : st.buffer.events.length ≤ (cfg.buffer_size - 1).toNat)
    (hm : st.buffer.metrics.length ≤ (cfg.buffer_size - 1).toNat) :
    (c.step cfg st).buffer.events.length ≤ (cfg.buffer_size - 1).toNat ∧
    (c.step cfg st).buffer.metrics.length ≤ (cfg.buffer_size - 1).toNat := by
  cases c with
  | cEvent eid ts source message etype metadata =>
    by_cases hE : cfg.enabled = false
    · refine ⟨?_, ?_⟩ <;> simp [Call.step, collectEvent, hE] <;> omega
    · refine ⟨?_, ?_⟩ <;>
      · simp [Call.step, collectEvent, hE, TelemetryData.addEvent]
        split_ifs with hth
        · simp [TelemetryData.empty]
        · simp
          omega
  | cMetric mid ts name value unit tgs =>
    by_cases hE : cfg.enabled = false
    · refine ⟨?_, ?_⟩ <;> simp [Call.step, collectMetric, hE] <;> omega
    · refine ⟨?_, ?_⟩ <;>
      · simp [Call.step, collectMetric, hE, TelemetryData.addMetric]
        split_ifs with hth
        · simp [TelemetryData.empty]
        · simp
          omega

/-- The per-list bound of `step_buffer_bound`, carried along any sequence
of ingestion calls. -/
theorem runCalls_buffer_bound (cfg : TelemetryConfig) (calls : List Call)
    (st : CollectorState)
    (he : st.buffer.events.length ≤ (cfg.buffer_size - 1).toNat)
    (hm : st.buffer.metrics.length ≤ (cfg.buffer_size - 1).toNat) :
    (runCalls cfg st calls).buffer.events.length ≤ (cfg.buffer_size - 1).toNat ∧
    (runCalls cfg st calls).buffer.metrics.length ≤ (cfg.buffer_size - 1).toNat := by
  induction calls generalizing st with
  | nil => exact ⟨he, hm⟩
  | cons c rest ih =>
    obtain ⟨he2, hm2⟩ := step_buffer_bound cfg st c he hm
    exact ih (c.step cfg st) he2 hm2

/-! Claims -/

/-- Claim C1 (counterexample): with buffer capacity `C = 3`, the sequence
event, metric, event, metric leaves `get_buffer_size` at `4 > 3`: the
threshold in `collect_event`/`collect_metric` watches only the list being
appended to, so the combined size exceeds the capacity, refuting
"`get_buffer_size` is at most `C` after every call". -/
theorem c1_buffer_exceeds_capacity :
    3 < (runCalls { buffer_size := 3 } (CollectorState.start [])
      [Call.cEvent "e1" 0 "app" "m1" EventType.info none,
       Call.cMetric "m1" 1 "cpu" 10 none none,
       Call.cEvent "e2" 2 "app" "m2" EventType.info none,
       Call.cMetric "m2" 3 "mem" 20 none none]).getBufferSize := by
  decide

/-- Claim C1 (amended): after every `collect_event`/`collect_metric` call the
events list and the metrics list each hold at most `max (C - 1) 0` records
(a list reaching `C` triggers the internal whole-buffer flush), so the
observable buffer size `get_buffer_size` is at most `2 * max (C - 1) 0` —
not `C`: the combined size can exceed the configured capacity. -/
theorem c1_buffer_size_bound (cfg : TelemetryConfig) (ls : List Listener)
    (calls : List Call) :
    (runCalls cfg (CollectorState.start ls) calls).getBufferSize ≤
      2 * (cfg.buffer_size - 1).toNat := by
  have h := runCalls_buffer_bound cfg calls (CollectorState.start ls)
    (by simp [CollectorState.start, TelemetryData.empty])
    (by simp [CollectorState.start, TelemetryData.empty])
  unfold CollectorState.getBufferSize
  omega

/-- Claim C2: `flush()` returns the whole buffer — a batch whose length
(events plus metrics) equals `get_buffer_size` immediately before the call
— and leaves the collector with `get_buffer_size = 0`. -/
theorem c2_flush_drains_exactly (st : CollectorState) :
    (st.flush).1.events.length + (st.flush).1.metrics.length = st.getBufferSize ∧
    (st.flush).2.getBufferSize = 0 := by
  exact ⟨rfl, rfl⟩

/-- Claim C3 (counterexample): with `sample_rate = 0.0` (a configuration
field that exists only in the tests' variant, modelled on
`TelemetryConfig`), a `collect_event` call still buffers a record — the
collect path of `collector.py` implements no sampling — refuting "when
sample_rate = 0.0, no collect call ever buffers a record". -/
theorem c3_sample_rate_zero_still_buffers :
    ((collectEvent { sample_rate := 0, buffer_size := 10 } (CollectorState.start [])
      "e1" 0 "app" "hello" EventType.info none).1.buffer.events.length = 1) := by
  decide

/-- Claim C3 (amended): the collect path implements no sampling at all: the
behaviour of `collect_event` and `collect_metric` is identical for every
value of `sample_rate` (including `0.0`), and every collect call on an
enabled collector buffers exactly one record — the new record is appended,
after which the whole buffer is discarded if the appended-to list reached
`buffer_size`. -/
theorem c3_no_sampling :
    (∀ (cfg : TelemetryConfig) (q : ℚ) (st : CollectorState) (eid : String)
       (ts : Nat) (source message : String) (etype : EventType)
       (metadata : Option StrDict),
      collectEvent { cfg with sample_rate := q } st eid ts source message etype metadata =
        collectEvent cfg st eid ts source message etype metadata) ∧
    (∀ (cfg : TelemetryConfig) (q : ℚ) (st : CollectorState) (mid : String)
       (ts : Nat) (name : String) (value : Int) (unit : Option String)
       (tgs : Option StrDict),
      collectMetric { cfg with sample_rate := q } st mid ts name value unit tgs =
        collectMetric cfg st mid ts name value unit tgs) ∧
    (∀ (cfg : TelemetryConfig) (st : CollectorState) (eid : String) (ts : Nat)
       (source message : String) (etype : EventType) (metadata : Option StrDict),
      cfg.enabled = true →
      (collectEvent cfg st eid ts source message etype metadata).1.buffer =
        (if ((st.buffer.events.length : Int) + 1 ≥ cfg.buffer_size) then TelemetryData.empty
         else st.buffer.addEvent
           { event_id := eid, timestamp := ts, event_type := etype,
             source := source, message := message, metadata := metadata })) ∧
    (∀ (cfg : TelemetryConfig) (st : CollectorState) (mid : String) (ts : Nat)
       (name : String) (value : Int) (unit : Option String) (tgs : Option StrDict),
      cfg.enabled = true →
      (collectMetric cfg st mid ts name value unit tgs).1.buffer =
        (if ((st.buffer.metrics.length : Int) + 1 ≥ cfg.buffer_size) then TelemetryData.empty
         else st.buffer.addMetric
           { metric_id := mid, timestamp := ts, name := name,
             value := value, unit := unit, tags := tgs })) := by
  refine ⟨?_, ?_, ?_, ?_⟩
  · intro cfg q st eid ts source message etype metadata
    rfl
  · intro cfg q st mid ts name value unit tgs
    rfl
  · intro cfg st eid ts source message etype metadata hE
    simp [collectEvent, hE, TelemetryData.addEvent]
  · intro cfg st mid ts name value unit tgs hE
    simp [collectMetric, hE, TelemetryData.addMetric]

/-- Claim C3 (witness): the amended statement at a concrete input: on an
enabled collector with capacity 10 and an empty buffer, one
`collect_event` leaves exactly the new event in the buffer. -/
theorem c3_no_sampling_witness :
    (collectEvent { buffer_size := 10 } (CollectorState.start [])
      "e1" 5 "app" "hello" EventType.info none).1.buffer =
      TelemetryData.empty.addEvent
        { event_id := "e1", timestamp := 5, event_type := EventType.info,
          source := "app", message := "hello", metadata := none } := by
  have h := c3_no_sampling.2.2.1 { buffer_size := 10 } (CollectorState.start [])
    "e1" 5 "app" "hello" EventType.info none rfl
  simpa [CollectorState.start] using h

/-- Claim C4: the collector never merges configuration-level default/global
tags into records: the metric produced by `collect_metric` carries exactly
the caller-supplied tags whatever the configuration holds, `flush` passes
the buffered records through unchanged, and — at the failing input of
`tests/test_collector.py::test_global_tags` (config tags
`env=test, version=1.0`, a metric collected with no caller tags) — the
buffered metric carries no tags at all. -/
theorem c4_no_default_tag_merge :
    (∀ (cfg : TelemetryConfig) (st : CollectorState) (mid : String) (ts : Nat)
       (name : String) (value : Int) (unit : Option String) (tgs : Option StrDict),
      (collectMetric cfg st mid ts name value unit tgs).2 =
        (if cfg.enabled = true then
          some { metric_id := mid, timestamp := ts, name := name,
                 value := value, unit := unit, tags := tgs }
         else none)) ∧
    (∀ st : CollectorState, (st.flush).1 = st.buffer) ∧
    ((collectMetric { tags := [("env", "test"), ("version", "1.0")] }
        (CollectorState.start []) "id0" 0 "test_metric" 100 none none).1.buffer.metrics.map
      (fun m => m.tags) = [none]) := by
  refine ⟨?_, ?_, ?_⟩
  · intro cfg st mid ts name value unit tgs
    by_cases hE : cfg.enabled <;> simp [collectMetric, hE]
  · intro st
    rfl
  · decide

/-- Claim C5: with `enabled = False` nothing is ever buffered or delivered:
every sequence of `collect_event`/`collect_metric` calls leaves the
collector exactly in its starting state (empty buffer, untouched
listeners), and `TelemetryService.emit` returns `False` without touching
the queue or the callbacks. -/
theorem c5_disabled_never_buffers_or_delivers :
    (∀ (cfg : TelemetryConfig) (ls : List Listener) (calls : List Call),
      cfg.enabled = false →
      runCalls cfg (CollectorState.start ls) calls = CollectorState.start ls) ∧
    (∀ (st : ServiceState) (event_type source : String) (data : StrDict)
       (metadata : Option StrDict) (eid : String) (ts : Nat),
      st.enabled = false →
      serviceEmit st event_type source data metadata eid ts = (st, false)) := by
  constructor
  · intro cfg ls calls hE
    have step_id : ∀ st : CollectorState, ∀ c : Call, c.step cfg st = st := by
      intro st c
      cases c <;> simp [Call.step, collectEvent, collectMetric, hE]
    induction calls with
    | nil => rfl
    | cons c rest ih => rw [runCalls, step_id, ih]
  · intro st event_type source data metadata eid ts hE
    simp [serviceEmit, hE]

/-- Claim C5 (witness): a disabled collector given one event and one metric
call ends exactly where it started, and a disabled service's `emit`
returns `False` unchanged. -/
theorem c5_disabled_witness :
    runCalls { enabled := false } (CollectorState.start [{ fails := false, received := [] }])
      [Call.cEvent "e1" 0 "app" "m" EventType.info none,
       Call.cMetric "m1" 1 "cpu" 5 none none] =
      CollectorState.start [{ fails := false, received := [] }] ∧
    serviceEmit
      { enabled := false, running := true, queue := [], eventCount := 0,
        maxBufferSize := 1000, callbacks := [] } "t" "src" [] none "id" 0 =
      ({ enabled := false, running := true, queue := [], eventCount := 0,
         maxBufferSize := 1000, callbacks := [] }, false) :=
  ⟨c5_disabled_never_buffers_or_delivers.1 _ _ _ rfl,
   c5_disabled_never_buffers_or_delivers.2 _ _ _ _ _ _ _ rfl⟩

/-- Claim C6: notifying registered listeners (`_notify_listeners`,
`collector.py`) or consumers (`_send_to_consumers`, `streaming.py`) with a
batch invokes every one of them with that batch, in order, whether or not
any of them raises, and no exception propagates: both notification
functions are total and equal to the plain "every handle receives the
batch" map. -/
theorem c6_listener_errors_isolated :
    (∀ (ls : List Listener) (d : TelemetryData),
      ls ≠ [] → ¬(d.events = [] ∧ d.metrics = []) →
      notifyListeners ls d = ls.map fun l => { l with received := l.received ++ [d] }) ∧
    (∀ (cs : List Listener) (d : TelemetryData),
      sendToConsumers cs d = cs.map fun l => { l with received := l.received ++ [d] }) := by
  constructor
  · intro ls d hls hd
    rw [notifyListeners, if_neg hls, if_neg hd]
    exact notifyEach_eq_map ls d
  · intro cs d
    exact sendToConsumers_eq_map cs d

/-- Claim C6 (witness): three listeners, the middle one raising, all receive
the one-event batch; likewise for consumers. -/
theorem c6_listener_errors_isolated_witness :
    notifyListeners
      [{ fails := false, received := [] }, { fails := true, received := [] },
       { fails := false, received := [] }]
      { events := [{ event_id := "e", timestamp := 0, event_type := EventType.info,
                     source := "s", message := "m", metadata := none }], metrics := [] } =
      [{ fails := false,
         received := [{ events := [{ event_id := "e", timestamp := 0,
                                     event_type := EventType.info, source := "s",
                                     message := "m", metadata := none }], metrics := [] }] },
       { fails := true,
         received := [{ events := [{ event_id := "e", timestamp := 0,
                                     event_type := EventType.info, source := "s",
                                     message := "m", metadata := none }], metrics := [] }] },
       { fails := false,
         received := [{ events := [{ event_id := "e", timestamp := 0,
                                     event_type := EventType.info, source := "s",
                                     message := "m", metadata := none }], metrics := [] }] }] := by
  rw [c6_listener_errors_isolated.1 _ _ (by decide) (by decide)]
  decide

/-- Claim C7 (counterexample): a stream whose collector buffer holds one
event, with a storage backend and one consumer attached: `stop()` delivers
nothing — the storage log stays empty, the consumer receives nothing, and
the event is still sitting in the collector buffer — refuting "calling
stop() performs one final drain of the buffer and delivers the drained
batch to the registered sinks/consumers before terminating". -/
theorem c7_stop_loses_buffered_records :
    (streamStop
      { collector :=
          { buffer := { events := [{ event_id := "e1", timestamp := 0,
                                     event_type := EventType.info, source := "s",
                                     message := "m", metadata := none }], metrics := [] },
            listeners := [] },
        hasStorage := true, storageLog := [],
        consumers := [{ fails := false, received := [] }],
        stopRequested := false, registered := true }).storageLog = [] ∧
    (streamStop
      { collector :=
          { buffer := { events := [{ event_id := "e1", timestamp := 0,
                                     event_type := EventType.info, source := "s",
                                     message := "m", metadata := none }], metrics := [] },
            listeners := [] },
        hasStorage := true, storageLog := [],
        consumers := [{ fails := false, received := [] }],
        stopRequested := false, registered := true }).consumers =
      [{ fails := false, received := [] }] ∧
    (streamStop
      { collector :=
          { buffer := { events := [{ event_id := "e1", timestamp := 0,
                                     event_type := EventType.info, source := "s",
                                     message := "m", metadata := none }], metrics := [] },
            listeners := [] },
        hasStorage := true, storageLog := [],
        consumers := [{ fails := false, received := [] }],
        stopRequested := false, registered := true }).collector.buffer.events.length = 1 := by
  refine ⟨rfl, rfl, rfl⟩

/-- Claim C7 (amended): `TelemetryStream.stop` performs no final drain: it
only sets the stop event (on which the loop exits at its next top-of-loop
check without flushing) and unregisters the real-time listener, so the
collector state, the storage log and the consumers are left exactly as
they were — records still buffered at stop are not delivered by the
stream. -/
theorem c7_stop_no_final_drain (s : StreamState) :
    streamStop s = { s with stopRequested := true, registered := false } := by
  rfl

/-- Claim C10: a `collect_event` (resp. `collect_metric`) call that makes the
corresponding list reach `buffer_size` drains the entire buffer inside the
call and discards the drained data: the resulting buffer is empty, the
call returns only the newly created record, and (outside real-time mode)
the listeners are untouched — the drained records are never returned,
delivered or handed to anything. -/
theorem c10_threshold_flush_discards :
    (∀ (cfg : TelemetryConfig) (st : CollectorState) (eid : String) (ts : Nat)
       (source message : String) (etype : EventType) (metadata : Option StrDict),
      cfg.enabled = true →
      ((st.buffer.events.length : Int) + 1 ≥ cfg.buffer_size) →
      (collectEvent cfg st eid ts source message etype metadata).1.buffer =
        TelemetryData.empty ∧
      (collectEvent cfg st eid ts source message etype metadata).2 =
        some { event_id := eid, timestamp := ts, event_type := etype,
               source := source, message := message, metadata := metadata } ∧
      (cfg.realtime_mode = false →
        (collectEvent cfg st eid ts source message etype metadata).1.listeners =
          st.listeners)) ∧
    (∀ (cfg : TelemetryConfig) (st : CollectorState) (mid : String) (ts : Nat)
       (name : String) (value : Int) (unit : Option String) (tgs : Option StrDict),
      cfg.enabled = true →
      ((st.buffer.metrics.length : Int) + 1 ≥ cfg.buffer_size) →
      (collectMetric cfg st mid ts name value unit tgs).1.buffer =
        TelemetryData.empty ∧
      (collectMetric cfg st mid ts name value unit tgs).2 =
        some { metric_id := mid, timestamp := ts, name := name,
               value := value, unit := unit, tags := tgs } ∧
      (cfg.realtime_mode = false →
        (collectMetric cfg st mid ts name value unit tgs).1.listeners =
          st.listeners)) := by
  constructor
  · intro cfg st eid ts source message etype metadata hE hth
    refine ⟨?_, ?_, ?_⟩
    · simp [collectEvent, hE, TelemetryData.addEvent]
      omega
    · simp [collectEvent, hE]
    · intro hrt
      simp [collectEvent, hE, hrt]
  · intro cfg st mid ts name value unit tgs hE hth
    refine ⟨?_, ?_, ?_⟩
    · simp [collectMetric, hE, TelemetryData.addMetric]
      omega
    · simp [collectMetric, hE]
    · intro hrt
      simp [collectMetric, hE, hrt]

/-- Claim C10 (witness): with capacity 1 and an empty buffer, one
`collect_event` reaches the threshold: the buffer is drained to empty
inside the call, the call returns just the new event, and the (empty)
listener list is untouched. -/
theorem c10_threshold_flush_discards_witness :
    (collectEvent { buffer_size := 1 } (CollectorState.start [])
      "e1" 0 "app" "m" EventType.info none).1.buffer = TelemetryData.empty ∧
    (collectEvent { buffer_size := 1 } (CollectorState.start [])
      "e1" 0 "app" "m" EventType.info none).2 =
      some { event_id := "e1", timestamp := 0, event_type := EventType.info,
             source := "app", message := "m", metadata := none } := by
  have h := c10_threshold_flush_discards.1 { buffer_size := 1 }
    (CollectorState.start []) "e1" 0 "app" "m" EventType.info none rfl (by decide)
  exact ⟨h.1, h.2.1⟩

/-- Claim C8 (counterexample): `TelemetryConfig.from_dict` raises nothing
and accepts an invalid value: given `buffer_size = -5` it returns a
configuration carrying the non-positive capacity `-5` unchanged, refuting
"constructing the configuration ... raises a descriptive error ... and no
invalid value is ever silently coerced or accepted". -/
theorem c8_from_dict_accepts_invalid :
    (TelemetryConfig.fromDict { buffer_size := some (-5) }).buffer_size = -5 ∧
    ((-5 : Int) ≤ 0) := by
  exact ⟨rfl, by decide⟩

/-- Claim C8 (amended): configuration construction performs no validation —
`from_dict` returns every supplied value unchanged (uncoerced, unchecked) —
and validation happens exactly once, at collector construction:
`TelemetryCollector.__init__` calls `config.validate()` (a method absent
from the `config.py` dataclass, modelled from the spec and
`tests/test_config.py`), which fails with a descriptive `ValueError` on a
non-positive buffer size, a non-positive flush interval, or a sample rate
outside `[0.0, 1.0]`, and succeeds exactly on valid configurations. -/
theorem c8_validation_at_collector_construction :
    (∀ d : ConfigDict,
      (TelemetryConfig.fromDict d).enabled = d.enabled.getD true ∧
      (TelemetryConfig.fromDict d).buffer_size = d.buffer_size.getD 1000 ∧
      (TelemetryConfig.fromDict d).source = d.source.getD "rimp" ∧
      (TelemetryConfig.fromDict d).custom_settings = d.custom_settings.getD []) ∧
    (∀ cfg : TelemetryConfig, cfg.buffer_size ≤ 0 →
      collectorInit cfg = Except.error "buffer_size must be positive") ∧
    (∀ cfg : TelemetryConfig, 0 < cfg.buffer_size →
      (cfg.sample_rate < 0 ∨ 1 < cfg.sample_rate) → 0 < cfg.flush_interval_ms →
      collectorInit cfg = Except.error "sample_rate must be between 0.0 and 1.0") ∧
    (∀ cfg : TelemetryConfig,
      collectorInit cfg = Except.ok (CollectorState.start []) ↔
        (0 < cfg.buffer_size ∧ 0 < cfg.flush_interval_ms ∧
         0 ≤ cfg.sample_rate ∧ cfg.sample_rate ≤ 1)) := by
  refine ⟨?_, ?_, ?_, ?_⟩
  · intro d
    exact ⟨rfl, rfl, rfl, rfl⟩
  · intro cfg h
    simp [collectorInit, TelemetryConfig.validate, h]
  · intro cfg h1 h2 h3
    rw [collectorInit, TelemetryConfig.validate, if_neg (by omega), if_neg (by omega),
      if_pos h2]
  · intro cfg
    constructor
    · intro h
      by_cases hb : cfg.buffer_size ≤ 0
      · simp [collectorInit, TelemetryConfig.validate, hb] at h
      · by_cases hf : cfg.flush_interval_ms ≤ 0
        · simp [collectorInit, TelemetryConfig.validate, hb, hf] at h
        · by_cases hs : cfg.sample_rate < 0 ∨ 1 < cfg.sample_rate
          · simp [collectorInit, TelemetryConfig.validate, hb, hf, hs] at h
          · push_neg at hs
            refine ⟨by omega, by omega, hs.1, hs.2⟩
    · intro ⟨h1, h2, h3, h4⟩
      rw [collectorInit, TelemetryConfig.validate, if_neg (by omega), if_neg (by omega),
        if_neg (by push_neg; exact ⟨h3, h4⟩)]

/-- Claim C8 (witness): the amended statement at concrete inputs: a
configuration with `buffer_size = -5` makes collector construction fail
with the descriptive buffer-size message, a configuration with
`sample_rate = 3/2` fails with the descriptive sample-rate message, and
the default configuration constructs successfully. -/
theorem c8_validation_witness :
    collectorInit { buffer_size := -5 } = Except.error "buffer_size must be positive" ∧
    collectorInit { sample_rate := 3/2 } =
      Except.error "sample_rate must be between 0.0 and 1.0" ∧
    collectorInit {} = Except.ok (CollectorState.start []) :=
  ⟨c8_validation_at_collector_construction.2.1 _ (by decide),
   c8_validation_at_collector_construction.2.2.1 _ (by decide)
     (Or.inr (by norm_num)) (by decide),
   (c8_validation_at_collector_construction.2.2.2 _).2
     ⟨by decide, by decide, by norm_num, by norm_num⟩⟩

/-- The `str` value written for an event type parses back to the same
enum member. -/
theorem fromValue_value (et : EventType) : EventType.fromValue et.value = some et := by
  cases et <;> rfl

/-- A serialized event line parses back to the original event (the
timestamp text round-trips by `Nat.ofDigits_digits`). -/
theorem parse_serializeEvent (e : TelemetryEvent) :
    parseEventWire (serializeEvent e) = some e := by
  cases e
  simp [parseEventWire, serializeEvent, fromValue_value, Nat.ofDigits_digits]

/-- A serialized metric line parses back to the original metric. -/
theorem parse_serializeMetric (m : TelemetryMetric) :
    parseMetricWire (serializeMetric m) = some m := by
  cases m
  simp [parseMetricWire, serializeMetric, Nat.ofDigits_digits]

/-- With no limit, the running count does not influence what
`FileStorage.retrieve`'s line loop returns. -/
theorem retrieveGo_none_count (lines : List FileLine) (c1 c2 : Nat) :
    retrieveGo lines c1 none = retrieveGo lines c2 none := by
  induction lines generalizing c1 c2 with
  | nil => rfl
  | cons line rest ih =>
    cases line with
    | event w =>
      cases h : parseEventWire w with
      | none => simp [retrieveGo, limitReached, h, ih c1 c2]
      | some e => simp [retrieveGo, limitReached, h, ih (c1 + 1) (c2 + 1)]
    | metric w =>
      cases h : parseMetricWire w with
      | none => simp [retrieveGo, limitReached, h, ih c1 c2]
      | some m => simp [retrieveGo, limitReached, h, ih (c1 + 1) (c2 + 1)]
    | corrupt => simp [retrieveGo, limitReached, ih c1 c2]

/-- Reading back a block of serialized metric lines returns exactly those
metrics, in order. -/
theorem retrieveGo_metric_block (ms : List TelemetryMetric) (c : Nat) :
    retrieveGo (ms.map fun m => FileLine.metric (serializeMetric m)) c none =
      { events := [], metrics := ms } := by
  induction ms generalizing c with
  | nil => rfl
  | cons m rest ih =>
    simp [retrieveGo, limitReached, parse_serializeMetric m, ih (c + 1)]

/-- Reading back a block of serialized event lines followed by anything
returns those events, in order, in front of whatever the tail yields. -/
theorem retrieveGo_event_block (es : List TelemetryEvent) (rest : List FileLine) (c : Nat) :
    retrieveGo ((es.map fun e => FileLine.event (serializeEvent e)) ++ rest) c none =
      { events := es ++ (retrieveGo rest 0 none).events,
        metrics := (retrieveGo rest 0 none).metrics } := by
  induction es generalizing c with
  | nil =>
    simp only [List.map_nil, List.nil_append]
    exact retrieveGo_none_count rest c 0
  | cons e tail ih =>
    simp [retrieveGo, limitReached, parse_serializeEvent e, ih (c + 1)]

/-- Claim C9: storing any batch of events and metrics through the file sink
and reading it back with `retrieve` and no filters returns exactly the
stored records — the same events and the same metrics, every field
(including the timestamp, serialized as text and parsed back) equal to the
original. -/
theorem c9_file_storage_round_trip (d : TelemetryData) :
    FileStorage.retrieve (FileStorage.store d []) none none none = d := by
  cases d with
  | mk es ms =>
    rw [FileStorage.retrieve, FileStorage.store]
    simp only [List.nil_append]
    rw [retrieveGo_event_block es _ 0, retrieveGo_metric_block ms 0]
    simp

end RIMP
